import Mathlib

/-!
Verification of the fertilizer-recommendation engine
(`generateEnhancedRecommendations` in the Dashboard component) against its
natural-language specification.

The engine is shallowly embedded over exact rationals: a JavaScript number
obtained from `parseFloat` is modelled as `Option ℚ`, with `none` standing for
NaN (every ordered comparison against NaN is false, and NaN propagates through
arithmetic).  `Math.round x` is `⌊x + 0.5⌋`, which matches JavaScript's
round-half-up semantics on all finite inputs, including negatives.  The awaited
call to the external classifier is supplied as an explicit
`MLPrediction` argument, following the spec's `assemble(input, prediction)`
view of the engine.
-/

/-- A JavaScript number as produced by `parseFloat`: `none` models NaN
(a field whose string failed to parse). -/
abbrev JSNum := Option ℚ

/-- JavaScript `x < q`: false when `x` is NaN. -/
def jlt (x : JSNum) (q : ℚ) : Bool :=
  match x with
  | none => false
  | some v => decide (v < q)

/-- JavaScript `x > q`: false when `x` is NaN. -/
def jgt (x : JSNum) (q : ℚ) : Bool :=
  match x with
  | none => false
  | some v => decide (q < v)

/-- Multiplication by a constant; NaN propagates.  Rational multiplication is
commutative, so this covers both operand orders appearing in the source. -/
def jmul (c : ℚ) (x : JSNum) : JSNum :=
  x.map (fun v => c * v)

/-- JavaScript `Math.round`: `⌊x + 0.5⌋` on finite inputs, NaN on NaN. -/
def jsRound (x : JSNum) : Option ℤ :=
  x.map (fun v => ⌊v + 0.5⌋)

/-- Template-literal rendering of a rounded number: `"NaN"` for NaN, the
decimal integer otherwise. -/
def jsNumToString (x : Option ℤ) : String :=
  match x with
  | none => "NaN"
  | some z => toString z

/-- Chunks a reversed digit list into groups of two, for the Indian-style
grouping of `toLocaleString('en-IN')`. -/
def chunk2 : List Char → List (List Char)
  | [] => []
  | [a] => [[a]]
  | a :: b :: rest => [a, b] :: chunk2 rest

/-- `Number.prototype.toLocaleString('en-IN')` on an integer: the last three
digits form one group and every earlier group has two digits
(e.g. `17000 ↦ "17,000"`, `404686 ↦ "4,04,686"`). -/
def toLocaleStringEnIN (z : ℤ) : String :=
  let ds := (toString z.natAbs).toList.reverse
  let head := ds.take 3
  let rest := chunk2 (ds.drop 3)
  let groups := (head :: rest).map (fun g => String.mk g.reverse)
  let s := String.intercalate "," groups.reverse
  if z < 0 then "-" ++ s else s

/-- The source's `₹${cost.toLocaleString('en-IN')}` template. -/
def formatINR (x : Option ℤ) : String :=
  match x with
  | none => "₹NaN"
  | some z => "₹" ++ toLocaleStringEnIN z

/-- One entry of the static fertilizer-metadata table
(description, application method, NPK-ratio string). -/
structure FertilizerInfo where
  description : String
  application : String
  npk : String
deriving DecidableEq

/-- The classifier collaborator's output: a fertilizer label and a
confidence score. -/
structure MLPrediction where
  fertilizer : String
  confidence : ℚ
deriving DecidableEq

/-- The `FormData` record after the engine's `parseFloat` calls: every numeric
field carries the parse result (`none` = the string failed to parse), while
unit and categorical codes stay as raw strings. -/
structure FieldInput where
  fieldName : String
  fieldSize : JSNum
  sizeUnit : String
  cropType : String
  soilPH : JSNum
  nitrogen : JSNum
  phosphorus : JSNum
  potassium : JSNum
  soilType : String
  temperature : JSNum
  humidity : JSNum
  soilMoisture : JSNum
deriving DecidableEq

/-- A primary or secondary fertilizer choice. -/
structure FertilizerChoice where
  name : String
  amount : String
  reason : String
  applicationMethod : String
deriving DecidableEq

/-- One organic-amendment catalog entry. -/
structure OrganicOption where
  name : String
  amount : String
  benefits : String
  applicationTiming : String
deriving DecidableEq

/-- The three fixed application-timing texts. -/
structure ApplicationTiming where
  primary : String
  secondary : String
  organic : String
deriving DecidableEq

/-- The cost estimate: the rounded integer component costs together with the
₹-formatted strings the source puts in the record. -/
structure CostEstimate where
  primary : String
  secondary : String
  organic : String
  total : String
deriving DecidableEq

/-- The soil-condition analysis block. -/
structure SoilConditionAnalysis where
  phStatus : String
  nutrientDeficiency : List String
  moistureStatus : String
  recommendations : List String
deriving DecidableEq

/-- The aggregate recommendation record returned by the engine. -/
structure EnhancedRecommendation where
  primaryFertilizer : FertilizerChoice
  secondaryFertilizer : FertilizerChoice
  organicOptions : List OrganicOption
  applicationTiming : ApplicationTiming
  costEstimate : CostEstimate
  soilConditionAnalysis : SoilConditionAnalysis
  mlPrediction : MLPrediction
deriving DecidableEq

/-- Modelled from the spec: the static lookup tables exported by the
`fertilizerMLService` module, whose source file is not part of this repository
snapshot (only its import and call sites are).  `fertilizerInfo` is the
label-keyed fertilizer-metadata table of the spec's external-interfaces
section; `cropName` and `soilName` model the reverse lookups
`Object.keys(CROP_TYPES).find(...)` / `Object.keys(SOIL_TYPES).find(...)` as
partial maps from the raw categorical code string to the category name. -/
structure MLTables where
  fertilizerInfo : String → Option FertilizerInfo
  cropName : String → Option String
  soilName : String → Option String

/-- `convertToHectares` from the source: `acres ↦ ×0.404686`,
`bigha ↦ ×0.1338`, and `hectares` together with every other unit string falls
through to the `default` branch returning the size unchanged. -/
def convertToHectares (size : JSNum) (unit : String) : JSNum :=
  if unit = "acres" then jmul 0.404686 size
  else if unit = "bigha" then jmul 0.1338 size
  else size

/-- `pH < 6.0 ? 'Acidic' : pH > 7.5 ? 'Alkaline' : 'Optimal'`. -/
def phStatusOf (pH : JSNum) : String :=
  if jlt pH 6.0 then "Acidic" else if jgt pH 7.5 then "Alkaline" else "Optimal"

/-- `moisture < 40 ? 'Low' : moisture > 80 ? 'High' : 'Optimal'`. -/
def moistureStatusOf (moisture : JSNum) : String :=
  if jlt moisture 40 then "Low"
  else if jgt moisture 80 then "High"
  else "Optimal"

/-- The three conditional `push` calls building `nutrientDeficiency`. -/
def nutrientDeficiencyOf (nitrogen phosphorus potassium : JSNum) : List String :=
  let l : List String := []
  let l := if jlt nitrogen 30 then l ++ ["Nitrogen"] else l
  let l := if jlt phosphorus 15 then l ++ ["Phosphorus"] else l
  if jlt potassium 120 then l ++ ["Potassium"] else l

/-- The primary-fertilizer record: name from the ML prediction, amount
`round(100 × hectares)`, and metadata-table lookup with the documented
fallback texts when the label is absent. -/
def primaryFertilizerOf (info : Option FertilizerInfo)
    (fertilizer cropName soilName : String) (hectares : JSNum) :
    FertilizerChoice :=
  { name := fertilizer
    amount := jsNumToString (jsRound (jmul 100 hectares)) ++ " kg"
    reason :=
      match info with
      | some i => i.description
      | none =>
          "ML model recommends this fertilizer for " ++ cropName ++ " in " ++
            soilName ++ " soil"
    applicationMethod :=
      match info with
      | some i => i.application
      | none => "Apply as per standard agricultural practices" }

/-- The secondary-fertilizer selection: phosphorus deficiency wins, then
potassium deficiency, else organic compost. -/
def secondaryFertilizerOf (nutrientDeficiency : List String)
    (hectares : JSNum) : FertilizerChoice :=
  if nutrientDeficiency.contains "Phosphorus" then
    { name := "DAP"
      amount := jsNumToString (jsRound (jmul 50 hectares)) ++ " kg"
      reason := "Addresses phosphorus deficiency identified in soil analysis"
      applicationMethod := "Apply as basal dose during soil preparation" }
  else if nutrientDeficiency.contains "Potassium" then
    { name := "Potassium sulfate"
      amount := jsNumToString (jsRound (jmul 40 hectares)) ++ " kg"
      reason := "Addresses potassium deficiency for better fruit quality"
      applicationMethod := "Apply during fruit development stage" }
  else
    { name := "Organic Compost"
      amount := jsNumToString (jsRound (jmul 1000 hectares)) ++ " kg"
      reason := "Improves soil structure and provides slow-release nutrients"
      applicationMethod :=
        "Apply 2-3 weeks before planting and incorporate into soil" }

/-- `Math.round(hectares * 4000)`. -/
def primaryCost (hectares : JSNum) : Option ℤ := jsRound (jmul 4000 hectares)

/-- `Math.round(hectares * 2500)`. -/
def secondaryCost (hectares : JSNum) : Option ℤ := jsRound (jmul 2500 hectares)

/-- `Math.round(hectares * 2000)`. -/
def organicCost (hectares : JSNum) : Option ℤ := jsRound (jmul 2000 hectares)

/-- `totalCost = primaryCost + secondaryCost + organicCost`
(summation of the already-rounded components; NaN propagates). -/
def totalCost (hectares : JSNum) : Option ℤ :=
  match primaryCost hectares, secondaryCost hectares, organicCost hectares with
  | some a, some b, some c => some (a + b + c)
  | _, _, _ => none

/-- The fixed three-entry organic catalog, scaled by area. -/
def organicOptionsOf (hectares : JSNum) : List OrganicOption :=
  [ { name := "Vermicompost"
      amount := jsNumToString (jsRound (jmul 1000 hectares)) ++ " kg"
      benefits :=
        "Rich in nutrients, improves soil structure and water retention"
      applicationTiming := "Apply 3-4 weeks before planting" },
    { name := "Neem Cake"
      amount := jsNumToString (jsRound (jmul 200 hectares)) ++ " kg"
      benefits := "Natural pest deterrent and slow-release nitrogen source"
      applicationTiming := "Apply at the time of land preparation" },
    { name := "Bone Meal"
      amount := jsNumToString (jsRound (jmul 150 hectares)) ++ " kg"
      benefits := "Excellent source of phosphorus and calcium"
      applicationTiming := "Apply as basal dose before sowing" } ]

/-- The five-entry guidance list, with the source's `.filter(Boolean)`
(which on strings removes exactly the empty ones). -/
def soilRecommendationsOf (pH : JSNum) (phStatus moistureStatus : String)
    (nutrientDeficiency : List String) : List String :=
  ([ if phStatus ≠ "Optimal" then
       "Adjust soil pH using " ++ (if jlt pH 6.0 then "lime" else "sulfur")
     else "Maintain current pH levels",
     if moistureStatus = "Low" then "Increase irrigation frequency"
     else if moistureStatus = "High" then "Improve drainage"
     else "Maintain current moisture levels",
     if nutrientDeficiency.length > 0 then
       "Address " ++ String.intercalate ", " nutrientDeficiency ++ " deficiency"
     else "Nutrient levels are adequate",
     "Regular soil testing every 6 months is recommended",
     "Consider crop rotation to maintain soil health" ]).filter
    (fun s => s ≠ "")

/-- The engine `generateEnhancedRecommendations`, with the awaited classifier
result passed in as `mlPrediction` and the `fertilizerMLService` tables as
`tables`.  A pure total function: the source has no validation or error path
of its own. -/
def generateEnhancedRecommendations (tables : MLTables) (data : FieldInput)
    (mlPrediction : MLPrediction) : EnhancedRecommendation :=
  let hectares := convertToHectares data.fieldSize data.sizeUnit
  let phStatus := phStatusOf data.soilPH
  let moistureStatus := moistureStatusOf data.soilMoisture
  let nutrientDeficiency :=
    nutrientDeficiencyOf data.nitrogen data.phosphorus data.potassium
  let cropName := (tables.cropName data.cropType).getD "Unknown"
  let soilName := (tables.soilName data.soilType).getD "Unknown"
  let primaryFertilizerInfo := tables.fertilizerInfo mlPrediction.fertilizer
  { primaryFertilizer :=
      primaryFertilizerOf primaryFertilizerInfo mlPrediction.fertilizer
        cropName soilName hectares
    secondaryFertilizer := secondaryFertilizerOf nutrientDeficiency hectares
    organicOptions := organicOptionsOf hectares
    applicationTiming :=
      { primary :=
          "Apply 1-2 weeks before planting for optimal nutrient availability"
        secondary :=
          "Apply during active growth phase or as recommended for specific fertilizer"
        organic :=
          "Apply 3-4 weeks before planting to allow decomposition" }
    costEstimate :=
      { primary := formatINR (primaryCost hectares)
        secondary := formatINR (secondaryCost hectares)
        organic := formatINR (organicCost hectares)
        total := formatINR (totalCost hectares) }
    soilConditionAnalysis :=
      { phStatus := phStatus
        nutrientDeficiency := nutrientDeficiency
        moistureStatus := moistureStatus
        recommendations :=
          soilRecommendationsOf data.soilPH phStatus moistureStatus
            nutrientDeficiency }
    mlPrediction := mlPrediction }

/-- A table assignment with no entries, usable wherever the abstract
`fertilizerMLService` tables must be instantiated concretely. -/
def emptyTables : MLTables :=
  { fertilizerInfo := fun _ => none
    cropName := fun _ => none
    soilName := fun _ => none }

/-- A fully valid sample input (the spec's end-to-end scenario). -/
def sampleInput : FieldInput :=
  { fieldName := "North Field"
    fieldSize := some 2
    sizeUnit := "hectares"
    cropType := "1"
    soilPH := some 5.5
    nitrogen := some 20
    phosphorus := some 10
    potassium := some 100
    soilType := "1"
    temperature := some 25
    humidity := some 60
    soilMoisture := some 30 }

/-- The spec's sample classifier output. -/
def samplePrediction : MLPrediction := { fertilizer := "Urea", confidence := 87 }

/-- Claim C10: the engine passes the classifier output through unmodified — the
returned `mlPrediction` is exactly the prediction received (label and
confidence unchanged), and the primary fertilizer's name is that label. -/
theorem ml_prediction_passthrough (t : MLTables) (i : FieldInput)
    (p : MLPrediction) :
    (generateEnhancedRecommendations t i p).mlPrediction = p ∧
    (generateEnhancedRecommendations t i p).mlPrediction.fertilizer =
      p.fertilizer ∧
    (generateEnhancedRecommendations t i p).mlPrediction.confidence =
      p.confidence ∧
    (generateEnhancedRecommendations t i p).primaryFertilizer.name =
      p.fertilizer := by
  refine ⟨rfl, rfl, rfl, rfl⟩

/-- Claim C3: the soil assessment classifies each reading independently by
fixed thresholds — pH is Acidic iff `pH < 6.0`, Alkaline iff `pH > 7.5`, else
Optimal (with the boundary cases 5.9/6.0/7.5/7.6 as stated); moisture is Low
iff `< 40`, High iff `> 80`, else Optimal; and the deficiency list flags
Nitrogen iff `< 30`, Phosphorus iff `< 15`, Potassium iff `< 120`, always in
the order N, P, K. -/
theorem soil_assessment_thresholds (pH m n p k : ℚ) :
    (phStatusOf (some pH) = "Acidic" ↔ pH < 6.0) ∧
    (phStatusOf (some pH) = "Alkaline" ↔ 7.5 < pH) ∧
    (phStatusOf (some pH) = "Optimal" ↔ 6.0 ≤ pH ∧ pH ≤ 7.5) ∧
    phStatusOf (some 5.9) = "Acidic" ∧
    phStatusOf (some 6.0) = "Optimal" ∧
    phStatusOf (some 7.5) = "Optimal" ∧
    phStatusOf (some 7.6) = "Alkaline" ∧
    (moistureStatusOf (some m) = "Low" ↔ m < 40) ∧
    (moistureStatusOf (some m) = "High" ↔ 80 < m) ∧
    (moistureStatusOf (some m) = "Optimal" ↔ 40 ≤ m ∧ m ≤ 80) ∧
    nutrientDeficiencyOf (some n) (some p) (some k) =
      (if n < 30 then ["Nitrogen"] else []) ++
        (if p < 15 then ["Phosphorus"] else []) ++
        (if k < 120 then ["Potassium"] else []) := by
  have hpa : phStatusOf (some pH) = "Acidic" ↔ pH < 6.0 := by
    by_cases h1 : pH < 6.0 <;> by_cases h2 : (7.5 : ℚ) < pH <;>
      simp [phStatusOf, jlt, jgt, h1, h2] <;> decide
  have hpb : phStatusOf (some pH) = "Alkaline" ↔ 7.5 < pH := by
    by_cases h1 : pH < 6.0 <;> by_cases h2 : (7.5 : ℚ) < pH <;>
      simp [phStatusOf, jlt, jgt, h1, h2] <;> first | decide | linarith
  have hpo : phStatusOf (some pH) = "Optimal" ↔ 6.0 ≤ pH ∧ pH ≤ 7.5 := by
    by_cases h1 : pH < 6.0 <;> by_cases h2 : (7.5 : ℚ) < pH <;>
      simp [phStatusOf, jlt, jgt, h1, h2] <;>
        first
          | (constructor <;> linarith)
          | (intro hx hy; linarith)
          | (rintro ⟨hx, hy⟩; linarith)
          | linarith
  have hml : moistureStatusOf (some m) = "Low" ↔ m < 40 := by
    by_cases h1 : m < 40 <;> by_cases h2 : (80 : ℚ) < m <;>
      simp [moistureStatusOf, jlt, jgt, h1, h2] <;> decide
  have hmh : moistureStatusOf (some m) = "High" ↔ 80 < m := by
    by_cases h1 : m < 40 <;> by_cases h2 : (80 : ℚ) < m <;>
      simp [moistureStatusOf, jlt, jgt, h1, h2] <;> first | decide | linarith
  have hmo : moistureStatusOf (some m) = "Optimal" ↔ 40 ≤ m ∧ m ≤ 80 := by
    by_cases h1 : m < 40 <;> by_cases h2 : (80 : ℚ) < m <;>
      simp [moistureStatusOf, jlt, jgt, h1, h2] <;>
        first
          | (constructor <;> linarith)
          | (intro hx hy; linarith)
          | (rintro ⟨hx, hy⟩; linarith)
          | linarith
  have hd : nutrientDeficiencyOf (some n) (some p) (some k) =
      (if n < 30 then ["Nitrogen"] else []) ++
        (if p < 15 then ["Phosphorus"] else []) ++
        (if k < 120 then ["Potassium"] else []) := by
    by_cases hn : n < 30 <;> by_cases hp : p < 15 <;> by_cases hk : k < 120 <;>
      simp [nutrientDeficiencyOf, jlt, hn, hp, hk]
  exact ⟨hpa, hpb, hpo, by norm_num [phStatusOf, jlt, jgt],
    by norm_num [phStatusOf, jlt, jgt], by norm_num [phStatusOf, jlt, jgt],
    by norm_num [phStatusOf, jlt, jgt], hml, hmh, hmo, hd⟩

/-- Claim C5: unit normalization multiplies by the fixed per-unit factor —
hectares ×1, acres ×0.404686, bigha ×0.1338 — and any unit string outside
these three falls back to the identity multiplier without any error. -/
theorem unit_normalization (s : ℚ) (hs : 0 < s) (u : String) :
    convertToHectares (some s) "hectares" = some (s * 1) ∧
    convertToHectares (some s) "acres" = some (s * 0.404686) ∧
    convertToHectares (some s) "bigha" = some (s * 0.1338) ∧
    (u ≠ "acres" → u ≠ "bigha" → convertToHectares (some s) u = some s) := by
  refine ⟨?_, ?_, ?_, ?_⟩
  · simp [convertToHectares]
  · simp [convertToHectares, jmul, mul_comm]
  · simp [convertToHectares, jmul, mul_comm]
  · intro h1 h2
    simp [convertToHectares, h1, h2]

/-- Witness for C5 at `s = 3` with the unrecognized unit `"sqft"`. -/
theorem unit_normalization_witness :
    convertToHectares (some 3) "sqft" = some 3 :=
  (unit_normalization 3 (by norm_num) "sqft").2.2.2 (by decide) (by decide)

/-- Claim C6: the primary fertilizer's name is the predicted label and its
amount is `round(100 × a)`; when the label is absent from the metadata table
the selection does not fail — the reason degrades to the templated string
naming crop and soil type and the application method degrades to the generic
instruction. -/
theorem primary_fertilizer_selection (info : Option FertilizerInfo)
    (label cropName soilName : String) (a : ℚ) (ha : 0 < a) :
    (primaryFertilizerOf info label cropName soilName (some a)).name = label ∧
    (primaryFertilizerOf info label cropName soilName (some a)).amount =
      jsNumToString (some ⌊100 * a + 0.5⌋) ++ " kg" ∧
    (info = none →
      (primaryFertilizerOf info label cropName soilName (some a)).reason =
          "ML model recommends this fertilizer for " ++ cropName ++ " in " ++
            soilName ++ " soil" ∧
      (primaryFertilizerOf info label cropName soilName (some a)).applicationMethod =
          "Apply as per standard agricultural practices") := by
  refine ⟨rfl, by simp [primaryFertilizerOf, jmul, jsRound], ?_⟩
  rintro rfl
  exact ⟨rfl, rfl⟩

/-- Witness for C6 at a label missing from (empty) metadata, area 2. -/
theorem primary_fertilizer_selection_witness :
    (primaryFertilizerOf none "Urea" "Wheat" "Loamy" (some 2)).applicationMethod =
      "Apply as per standard agricultural practices" :=
  ((primary_fertilizer_selection none "Urea" "Wheat" "Loamy" 2
    (by norm_num)).2.2 rfl).2

/-- Claim C8: the organic options list has exactly three entries, always in
the order Vermicompost, Neem Cake, Bone Meal, with amounts
`round(1000 × a)`, `round(200 × a)`, `round(150 × a)` and the static
benefits and application-timing text. -/
theorem organic_options_catalog (a : ℚ) (ha : 0 < a) :
    organicOptionsOf (some a) =
      [ { name := "Vermicompost"
          amount := jsNumToString (some ⌊1000 * a + 0.5⌋) ++ " kg"
          benefits :=
            "Rich in nutrients, improves soil structure and water retention"
          applicationTiming := "Apply 3-4 weeks before planting" },
        { name := "Neem Cake"
          amount := jsNumToString (some ⌊200 * a + 0.5⌋) ++ " kg"
          benefits := "Natural pest deterrent and slow-release nitrogen source"
          applicationTiming := "Apply at the time of land preparation" },
        { name := "Bone Meal"
          amount := jsNumToString (some ⌊150 * a + 0.5⌋) ++ " kg"
          benefits := "Excellent source of phosphorus and calcium"
          applicationTiming := "Apply as basal dose before sowing" } ] ∧
    (organicOptionsOf (some a)).length = 3 ∧
    (organicOptionsOf (some a)).map OrganicOption.name =
      ["Vermicompost", "Neem Cake", "Bone Meal"] := by
  refine ⟨?_, rfl, rfl⟩
  simp [organicOptionsOf, jmul, jsRound]

/-- Witness for C8 at area 2 (spec scenario amounts 2000, 400, 300). -/
theorem organic_options_catalog_witness :
    (organicOptionsOf (some 2)).length = 3 :=
  (organic_options_catalog 2 (by norm_num)).2.1

/-- The deficiency list contains `"Phosphorus"` exactly when the phosphorus
reading is below 15, whatever the other readings. -/
theorem mem_phosphorus_iff (n p k : ℚ) :
    "Phosphorus" ∈ nutrientDeficiencyOf (some n) (some p) (some k) ↔
      p < 15 := by
  by_cases hn : n < 30 <;> by_cases hp : p < 15 <;> by_cases hk : k < 120 <;>
    simp [nutrientDeficiencyOf, jlt, hn, hp, hk]

/-- The deficiency list contains `"Potassium"` exactly when the potassium
reading is below 120, whatever the other readings. -/
theorem mem_potassium_iff (n p k : ℚ) :
    "Potassium" ∈ nutrientDeficiencyOf (some n) (some p) (some k) ↔
      k < 120 := by
  by_cases hn : n < 30 <;> by_cases hp : p < 15 <;> by_cases hk : k < 120 <;>
    simp [nutrientDeficiencyOf, jlt, hn, hp, hk]

/-- Claim C1: the secondary fertilizer is chosen by fixed priority with
exactly one winner — a Phosphorus deficiency yields DAP with `round(50 × a)`,
otherwise a Potassium deficiency yields Potassium sulfate with
`round(40 × a)`, otherwise (including when Nitrogen is the only deficiency or
none is) Organic Compost with `round(1000 × a)` — and the nitrogen reading
never changes the secondary choice. -/
theorem secondary_fertilizer_priority (n p k a : ℚ) (ha : 0 < a) :
    (p < 15 →
      (secondaryFertilizerOf (nutrientDeficiencyOf (some n) (some p) (some k))
          (some a)).name = "DAP" ∧
      (secondaryFertilizerOf (nutrientDeficiencyOf (some n) (some p) (some k))
          (some a)).amount = jsNumToString (some ⌊50 * a + 0.5⌋) ++ " kg") ∧
    (15 ≤ p → k < 120 →
      (secondaryFertilizerOf (nutrientDeficiencyOf (some n) (some p) (some k))
          (some a)).name = "Potassium sulfate" ∧
      (secondaryFertilizerOf (nutrientDeficiencyOf (some n) (some p) (some k))
          (some a)).amount = jsNumToString (some ⌊40 * a + 0.5⌋) ++ " kg") ∧
    (15 ≤ p → 120 ≤ k →
      (secondaryFertilizerOf (nutrientDeficiencyOf (some n) (some p) (some k))
          (some a)).name = "Organic Compost" ∧
      (secondaryFertilizerOf (nutrientDeficiencyOf (some n) (some p) (some k))
          (some a)).amount = jsNumToString (some ⌊1000 * a + 0.5⌋) ++ " kg") ∧
    (∀ n2 : ℚ,
      secondaryFertilizerOf (nutrientDeficiencyOf (some n2) (some p) (some k))
          (some a) =
        secondaryFertilizerOf (nutrientDeficiencyOf (some n) (some p) (some k))
          (some a)) := by
  refine ⟨?_, ?_, ?_, ?_⟩
  · intro hp
    simp [secondaryFertilizerOf, mem_phosphorus_iff, hp, jmul, jsRound]
  · intro hp hk
    have hp2 : ¬ p < 15 := not_lt.mpr hp
    simp [secondaryFertilizerOf, mem_phosphorus_iff, mem_potassium_iff,
      hp2, hk, jmul, jsRound]
  · intro hp hk
    have hp2 : ¬ p < 15 := not_lt.mpr hp
    have hk2 : ¬ k < 120 := not_lt.mpr hk
    simp [secondaryFertilizerOf, mem_phosphorus_iff, mem_potassium_iff,
      hp2, hk2, jmul, jsRound]
  · intro n2
    simp [secondaryFertilizerOf, mem_phosphorus_iff, mem_potassium_iff]

/-- Witness for C1: phosphorus 10 < 15 at area 2 yields DAP. -/
theorem secondary_fertilizer_priority_witness :
    (secondaryFertilizerOf
        (nutrientDeficiencyOf (some 20) (some 10) (some 100)) (some 2)).name =
      "DAP" :=
  ((secondary_fertilizer_priority 20 10 100 2 (by norm_num)).1 (by norm_num)).1

/-- Claim C4: the cost components are `round(4000 × a)`, `round(2500 × a)`,
`round(2000 × a)`; the total sums the already-rounded components, hence
differs from `round(8500 × a)` by at most 2; at `a = 2` the values are
8000, 5000, 4000, 17000. -/
theorem cost_estimate_rounding (a : ℚ) (ha : 0 < a) :
    primaryCost (some a) = some ⌊4000 * a + 0.5⌋ ∧
    secondaryCost (some a) = some ⌊2500 * a + 0.5⌋ ∧
    organicCost (some a) = some ⌊2000 * a + 0.5⌋ ∧
    totalCost (some a) =
      some (⌊4000 * a + 0.5⌋ + ⌊2500 * a + 0.5⌋ + ⌊2000 * a + 0.5⌋) ∧
    |⌊4000 * a + 0.5⌋ + ⌊2500 * a + 0.5⌋ + ⌊2000 * a + 0.5⌋ -
        ⌊8500 * a + 0.5⌋| ≤ 2 ∧
    primaryCost (some 2) = some 8000 ∧
    secondaryCost (some 2) = some 5000 ∧
    organicCost (some 2) = some 4000 ∧
    totalCost (some 2) = some 17000 := by
  have f1 : ((⌊4000 * a + 0.5⌋ : ℤ) : ℚ) ≤ 4000 * a + 0.5 := Int.floor_le _
  have f2 : (4000 * a + 0.5 : ℚ) < (⌊4000 * a + 0.5⌋ : ℤ) + 1 :=
    Int.lt_floor_add_one _
  have f3 : ((⌊2500 * a + 0.5⌋ : ℤ) : ℚ) ≤ 2500 * a + 0.5 := Int.floor_le _
  have f4 : (2500 * a + 0.5 : ℚ) < (⌊2500 * a + 0.5⌋ : ℤ) + 1 :=
    Int.lt_floor_add_one _
  have f5 : ((⌊2000 * a + 0.5⌋ : ℤ) : ℚ) ≤ 2000 * a + 0.5 := Int.floor_le _
  have f6 : (2000 * a + 0.5 : ℚ) < (⌊2000 * a + 0.5⌋ : ℤ) + 1 :=
    Int.lt_floor_add_one _
  have f7 : ((⌊8500 * a + 0.5⌋ : ℤ) : ℚ) ≤ 8500 * a + 0.5 := Int.floor_le _
  have f8 : (8500 * a + 0.5 : ℚ) < (⌊8500 * a + 0.5⌋ : ℤ) + 1 :=
    Int.lt_floor_add_one _
  have habs : |⌊4000 * a + 0.5⌋ + ⌊2500 * a + 0.5⌋ + ⌊2000 * a + 0.5⌋ -
      ⌊8500 * a + 0.5⌋| ≤ 2 := by
    rw [abs_le]
    constructor
    · have hq : (-2 : ℚ) ≤ ((⌊4000 * a + 0.5⌋ + ⌊2500 * a + 0.5⌋ +
          ⌊2000 * a + 0.5⌋ - ⌊8500 * a + 0.5⌋ : ℤ) : ℚ) := by
        push_cast
        linarith
      exact_mod_cast hq
    · have hq : ((⌊4000 * a + 0.5⌋ + ⌊2500 * a + 0.5⌋ + ⌊2000 * a + 0.5⌋ -
          ⌊8500 * a + 0.5⌋ : ℤ) : ℚ) ≤ 2 := by
        push_cast
        linarith
      exact_mod_cast hq
  have hp2 : primaryCost (some 2) = some 8000 := by
    simp only [primaryCost, jmul, jsRound, Option.map_some', Option.some.injEq]
    rw [Int.floor_eq_iff] <;> norm_num
  have hs2 : secondaryCost (some 2) = some 5000 := by
    simp only [secondaryCost, jmul, jsRound, Option.map_some',
      Option.some.injEq]
    rw [Int.floor_eq_iff] <;> norm_num
  have ho2 : organicCost (some 2) = some 4000 := by
    simp only [organicCost, jmul, jsRound, Option.map_some', Option.some.injEq]
    rw [Int.floor_eq_iff] <;> norm_num
  have ht2 : totalCost (some 2) = some 17000 := by
    simp only [totalCost, hp2, hs2, ho2]
    norm_num
  refine ⟨by simp [primaryCost, jmul, jsRound],
    by simp [secondaryCost, jmul, jsRound],
    by simp [organicCost, jmul, jsRound], ?_, habs, hp2, hs2, ho2, ht2⟩
  simp [totalCost, primaryCost, secondaryCost, organicCost, jmul, jsRound]

/-- Witness for C4 at area 2. -/
theorem cost_estimate_rounding_witness :
    primaryCost (some 2) = some 8000 :=
  (cost_estimate_rounding 2 (by norm_num)).2.2.2.2.2.1

/-- Claim C9: determinism — two runs on identical input and identical
classifier prediction produce structurally equal recommendations in every
field. -/
theorem engine_deterministic (t : MLTables) (i j : FieldInput)
    (p q : MLPrediction) (hij : i = j) (hpq : p = q) :
    generateEnhancedRecommendations t i p =
      generateEnhancedRecommendations t j q ∧
    (generateEnhancedRecommendations t i p).primaryFertilizer =
      (generateEnhancedRecommendations t j q).primaryFertilizer ∧
    (generateEnhancedRecommendations t i p).secondaryFertilizer =
      (generateEnhancedRecommendations t j q).secondaryFertilizer ∧
    (generateEnhancedRecommendations t i p).organicOptions =
      (generateEnhancedRecommendations t j q).organicOptions ∧
    (generateEnhancedRecommendations t i p).applicationTiming =
      (generateEnhancedRecommendations t j q).applicationTiming ∧
    (generateEnhancedRecommendations t i p).costEstimate =
      (generateEnhancedRecommendations t j q).costEstimate ∧
    (generateEnhancedRecommendations t i p).soilConditionAnalysis =
      (generateEnhancedRecommendations t j q).soilConditionAnalysis ∧
    (generateEnhancedRecommendations t i p).mlPrediction =
      (generateEnhancedRecommendations t j q).mlPrediction := by
  subst hij
  subst hpq
  exact ⟨rfl, rfl, rfl, rfl, rfl, rfl, rfl, rfl⟩

/-- Witness for C9 at the sample scenario. -/
theorem engine_deterministic_witness :
    generateEnhancedRecommendations emptyTables sampleInput samplePrediction =
      generateEnhancedRecommendations emptyTables sampleInput
        samplePrediction :=
  (engine_deterministic emptyTables sampleInput sampleInput samplePrediction
    samplePrediction rfl rfl).1

/-- Claim C7: the soil-condition recommendations list always has exactly five
entries in fixed order — pH adjustment (lime when `pH < 6.0`, sulfur
otherwise) or the maintain-pH message, moisture advice, the deficiency
summary or adequacy message, the fixed soil-testing reminder, and the fixed
crop-rotation reminder — no step is ever omitted. -/
theorem soil_recommendations_five_steps (pH m n p k : ℚ) :
    soilRecommendationsOf (some pH) (phStatusOf (some pH))
        (moistureStatusOf (some m))
        (nutrientDeficiencyOf (some n) (some p) (some k)) =
      [ (if phStatusOf (some pH) ≠ "Optimal" then
           "Adjust soil pH using " ++ (if pH < 6.0 then "lime" else "sulfur")
         else "Maintain current pH levels"),
        (if moistureStatusOf (some m) = "Low" then
           "Increase irrigation frequency"
         else if moistureStatusOf (some m) = "High" then "Improve drainage"
         else "Maintain current moisture levels"),
        (if nutrientDeficiencyOf (some n) (some p) (some k) ≠ [] then
           "Address " ++
             String.intercalate ", "
               (nutrientDeficiencyOf (some n) (some p) (some k)) ++
             " deficiency"
         else "Nutrient levels are adequate"),
        "Regular soil testing every 6 months is recommended",
        "Consider crop rotation to maintain soil health" ] ∧
    (soilRecommendationsOf (some pH) (phStatusOf (some pH))
        (moistureStatusOf (some m))
        (nutrientDeficiencyOf (some n) (some p) (some k))).length = 5 := by
  by_cases h1 : pH < 6.0 <;> by_cases h2 : (7.5 : ℚ) < pH <;>
    by_cases h3 : m < 40 <;> by_cases h4 : (80 : ℚ) < m <;>
      by_cases h5 : n < 30 <;> by_cases h6 : p < 15 <;>
        by_cases h7 : k < 120 <;>
          simp [soilRecommendationsOf, phStatusOf, moistureStatusOf,
            nutrientDeficiencyOf, jlt, jgt, h1, h2, h3, h4, h5, h6, h7] <;>
            decide

/-- The sample input with a soilPH string that fails to parse (NaN). -/
def nanPHInput : FieldInput := { sampleInput with soilPH := none }

/-- The sample input with a non-positive field size. -/
def negSizeInput : FieldInput := { sampleInput with fieldSize := some (-1) }

/-- Claim C2 evaluation: the engine has no InvalidInput path.  On an input
whose soilPH fails to parse it still computes a complete Recommendation — the
NaN pH is silently classified "Optimal" (every comparison against NaN is
false), the primary dosage is computed, and all five guidance entries are
produced — and on a non-positive field size it still produces a
Recommendation, with a negative dosage. -/
theorem no_invalid_input_check :
    (generateEnhancedRecommendations emptyTables nanPHInput
        samplePrediction).soilConditionAnalysis.phStatus = "Optimal" ∧
    (generateEnhancedRecommendations emptyTables nanPHInput
        samplePrediction).primaryFertilizer.amount = "200 kg" ∧
    ((generateEnhancedRecommendations emptyTables nanPHInput
        samplePrediction).soilConditionAnalysis.recommendations).length = 5 ∧
    (generateEnhancedRecommendations emptyTables negSizeInput
        samplePrediction).primaryFertilizer.amount = "-100 kg" := by
  have hc1 : convertToHectares nanPHInput.fieldSize nanPHInput.sizeUnit =
      some 2 := by
    simp [nanPHInput, sampleInput, convertToHectares]
  have hc2 : convertToHectares negSizeInput.fieldSize negSizeInput.sizeUnit =
      some (-1) := by
    simp [negSizeInput, sampleInput, convertToHectares]
  have e1 : jsRound (jmul 100 (convertToHectares nanPHInput.fieldSize
      nanPHInput.sizeUnit)) = some 200 := by
    rw [hc1]
    simp only [jmul, jsRound, Option.map_some', Option.some.injEq]
    rw [Int.floor_eq_iff] <;> norm_num
  have e2 : jsRound (jmul 100 (convertToHectares negSizeInput.fieldSize
      negSizeInput.sizeUnit)) = some (-100) := by
    rw [hc2]
    simp only [jmul, jsRound, Option.map_some', Option.some.injEq]
    rw [Int.floor_eq_iff] <;> norm_num
  refine ⟨by decide, ?_, by decide, ?_⟩
  · simp only [generateEnhancedRecommendations, primaryFertilizerOf, e1,
      jsNumToString]
    decide
  · simp only [generateEnhancedRecommendations, primaryFertilizerOf, e2,
      jsNumToString]
    decide
